import Mathlib

/-!
Verification development for the CoinWhistle alerting pipeline.

The definitions below are shallow embeddings of the Python sources:
`alert_engine.py` (cooldown / escalation state machine), `config.py`
(big-order thresholds, night-mode and effective alert mode),
`models.py` (price history change computation), `src/notifier.py`
(pending registry, repeat loop, confirmation) and `telegram_bot.py`
(symbol muting).  Wall-clock instants are integers (seconds),
monetary quantities are rationals, and Python strings are lists of
characters so that every operation is structurally recursive and
kernel-computable.
-/

namespace CoinWhistle

/-! Character-list infrastructure standing in for Python `str`. -/

/-- Symbols and alert ids: Python strings as character lists. -/
abbrev Sym := List Char

/-- Python `pattern in s` (substring test), scanning left to right. -/
def containsSub (pat : Sym) : Sym → Bool
  | [] => pat.isEmpty
  | c :: rest => List.isPrefixOf pat (c :: rest) || containsSub pat rest

/-- Python `s.replace("USDT", "")`: drop every occurrence of `USDT`,
scanning left to right without overlap. -/
def stripUSDT : Sym → Sym
  | 'U' :: 'S' :: 'D' :: 'T' :: rest => stripUSDT rest
  | c :: rest => c :: stripUSDT rest
  | [] => []

/-- Python `s.upper()` for the ASCII symbols used by the bot. -/
def upperSym (s : Sym) : Sym := s.map Char.toUpper

/-- Python `s.endswith("USDT")`. -/
def endsWithUSDT (s : Sym) : Bool := List.isSuffixOf ['U', 'S', 'D', 'T'] s

/-- Python `s.strip()`: drop whitespace from both ends. -/
def trimSym (s : Sym) : Sym :=
  ((s.dropWhile Char.isWhitespace).reverse.dropWhile Char.isWhitespace).reverse

/-! Enumerations from `models.py` and `config.py`. -/

/-- `models.AlertLevel` (the emoji component is irrelevant to the logic). -/
inductive AlertLevel
  | INFO
  | WARNING
  | CRITICAL
  | EXTREME
deriving DecidableEq, Repr

/-- `AlertLevel.priority`: INFO 1, WARNING 2, CRITICAL 3, EXTREME 4. -/
def AlertLevel.priority : AlertLevel → Nat
  | .INFO => 1
  | .WARNING => 2
  | .CRITICAL => 3
  | .EXTREME => 4

/-- `models.AlertStatus`. -/
inductive AlertStatus
  | PENDING
  | SENT
  | CONFIRMED
deriving DecidableEq, Repr

/-- `config.AlertMode`. -/
inductive AlertMode
  | SINGLE
  | REPEAT
deriving DecidableEq, Repr

/-! Cooldown and escalation state machine,
`AlertEngine._check_cooldown_and_escalation` and
`AlertEngine._set_cooldown` in `alert_engine.py`.  A cooldown cell is
the stored pair `(last_time, last_level)`; `none` models an absent
key in the nested cooldown dictionaries. -/

/-- `AlertEngine._check_cooldown_and_escalation`, returning the pair
`(should_send, is_escalation)` for one `(user, symbol, alert_type)`
cell.  `now` and `cooldownSeconds` are in seconds. -/
def checkCooldownAndEscalation (cell : Option (Int × AlertLevel))
    (now cooldownSeconds : Int) (currentLevel : AlertLevel) : Bool × Bool :=
  match cell with
  | none => (true, false)
  | some (lastTime, lastLevel) =>
    let inCooldown : Bool := now - lastTime < cooldownSeconds
    if !inCooldown then (true, false)
    else if currentLevel.priority > lastLevel.priority then (true, true)
    else (false, false)

/-- One candidate firing: the engine consults
`_check_cooldown_and_escalation` and, exactly when `should_send` is
true, calls `_set_cooldown`, overwriting the cell with
`(now, currentLevel)`.  Returns `((should_send, is_escalation), cell')`. -/
def processCandidate (cell : Option (Int × AlertLevel))
    (now cooldownSeconds : Int) (currentLevel : AlertLevel) :
    (Bool × Bool) × Option (Int × AlertLevel) :=
  let r := checkCooldownAndEscalation cell now cooldownSeconds currentLevel
  (r, if r.1 then some (now, currentLevel) else cell)

/-! Big-order thresholds, `config.BigOrderThreshold`. -/

/-- `config.BigOrderThreshold` with its dataclass defaults. -/
structure BigOrderThreshold where
  min_order_small_cap : ℚ := 500000
  min_order_mid_cap : ℚ := 2000000
  min_order_large_cap : ℚ := 5000000
  min_order_mega_cap : ℚ := 10000000
  ratio_small_cap : ℚ := 20
  ratio_mid_cap : ℚ := 10
  ratio_large_cap : ℚ := 5
  ratio_mega_cap : ℚ := 2

/-- `BigOrderThreshold.get_threshold`: absolute and percentage
thresholds for a 24h quote turnover. -/
def BigOrderThreshold.get_threshold (c : BigOrderThreshold) (volume24h : ℚ) : ℚ × ℚ :=
  if volume24h < 10000000 then (c.min_order_small_cap, c.ratio_small_cap)
  else if volume24h < 100000000 then (c.min_order_mid_cap, c.ratio_mid_cap)
  else if volume24h < 1000000000 then (c.min_order_large_cap, c.ratio_large_cap)
  else (c.min_order_mega_cap, c.ratio_mega_cap)

/-- `BigOrderThreshold.is_big_order`. -/
def BigOrderThreshold.is_big_order (c : BigOrderThreshold)
    (orderValue volume24h : ℚ) : Bool :=
  if volume24h ≤ 0 then orderValue ≥ c.min_order_small_cap
  else
    let t := c.get_threshold volume24h
    orderValue ≥ max t.1 (volume24h * t.2 / 100)

/-- The default big-order configuration (also the MODERATE preset). -/
def defaultBigOrderThreshold : BigOrderThreshold := {}

/-- Tier table of absolute floors exactly as the specification states it. -/
def tierAbsSpec (V : ℚ) : ℚ :=
  if V < 10000000 then 500000
  else if V < 100000000 then 2000000
  else if V < 1000000000 then 5000000
  else 10000000

/-- Tier table of percentage floors exactly as the specification states it. -/
def tierRatioSpec (V : ℚ) : ℚ :=
  if V < 10000000 then 20
  else if V < 100000000 then 10
  else if V < 1000000000 then 5
  else 2

/-! Night mode and effective alert mode, `config.NightModeConfig`,
`config.AlertModeConfig`, `UserConfig.is_night_time` and
`UserConfig.get_effective_mode`.  The parsed `"%H:%M"` window bounds
and the user's current local time are minutes since local midnight. -/

/-- `config.NightModeConfig` (window bounds as minutes since midnight). -/
structure NightModeConfig where
  enabled : Bool := true
  auto_switch : Bool := true
  night_start : Nat := 23 * 60
  night_end : Nat := 7 * 60
  night_interval_seconds : Int := 15
  night_max_repeats : Nat := 20
deriving DecidableEq, Repr

/-- `config.AlertModeConfig` restricted to the fields the mode logic reads. -/
structure AlertModeConfig where
  mode : AlertMode := .SINGLE
  night : NightModeConfig := {}
deriving DecidableEq, Repr

/-- Membership of a local time in the night window: `start <= end`
means `start <= now <= end`; `start > end` (wrapping past midnight)
means `now >= start or now <= end`. -/
def nightWindowContains (s e now : Nat) : Bool :=
  if s ≤ e then s ≤ now && now ≤ e else now ≥ s || now ≤ e

/-- `UserConfig.is_night_time`, with the user's current local time
(minutes since midnight) passed explicitly. -/
def is_night_time (c : AlertModeConfig) (localNow : Nat) : Bool :=
  if !c.night.enabled then false
  else nightWindowContains c.night.night_start c.night.night_end localNow

/-- `UserConfig.get_effective_mode`. -/
def get_effective_mode (c : AlertModeConfig) (localNow : Nat) : AlertMode :=
  if c.night.enabled && c.night.auto_switch && is_night_time c localNow then
    .REPEAT
  else c.mode

/-! Dispatcher state, `src/notifier.py`.  The registries are modelled
per user: one user's slice of `pending_alerts` is an association list
from alert id to alert, and the user's `confirmed_ids` is a list of ids. -/

/-- The fields of `models.Alert` that the dispatcher reads or writes. -/
structure PAlert where
  symbol : Sym
  status : AlertStatus := .PENDING
  sentCount : Nat := 0
  lastSent : Option Int := none
  confirmedAt : Option Int := none
deriving DecidableEq, Repr

/-- The alert mutation performed by `MultiUserNotifier._send_once` on
every send attempt: increment `sent_count`, stamp `last_sent`, set
status `SENT`. -/
def sendOnceUpd (a : PAlert) (now : Int) : PAlert :=
  { a with sentCount := a.sentCount + 1, lastSent := some now, status := .SENT }

/-- `MultiUserNotifier.send_alert_to_user`, restricted to its effect on
the user's pending registry.  `sendSuccess` is the Boolean returned by
the initial `_send_once` call. -/
def send_alert_to_user (cfg : AlertModeConfig) (localNow : Nat) (now : Int)
    (sendSuccess : Bool) (pending : List (Sym × PAlert)) (aid : Sym)
    (a : PAlert) : List (Sym × PAlert) :=
  if get_effective_mode cfg localNow == AlertMode.REPEAT then
    if sendSuccess then (aid, sendOnceUpd a now) :: pending else pending
  else pending

/-! One pending alert's view of `MultiUserNotifier._repeat_loop`.
`confirmed` is membership of the alert's id in the user's
`confirmed_ids`; `monitored` is `user_config.should_monitor(symbol)`
(false once the symbol is muted onto the blacklist); `active` is
`user_config.is_active`; `inPending` is membership in the pending
registry. -/

/-- State of one alert with respect to the repeat loop. -/
structure RepeatState where
  sentCount : Nat
  lastSent : Option Int
  confirmed : Bool
  monitored : Bool
  active : Bool
  inPending : Bool
deriving DecidableEq, Repr

/-- One 5-second iteration of `_repeat_loop` as it affects one alert.
`repeatEnabled` is the guard
`repeat_config['enabled'] or effective mode == REPEAT`; `sendOk` is the
result of the `_send_once` call when one happens.  Returns the new
state and whether a send attempt was made. -/
def repeat_iter (interval : Int) (maxRepeats : Nat) (repeatEnabled : Bool)
    (now : Int) (sendOk : Bool) (st : RepeatState) : RepeatState × Bool :=
  if !st.inPending then (st, false)
  else if !st.active then ({ st with inPending := false }, false)
  else if !repeatEnabled then (st, false)
  else if st.confirmed then ({ st with inPending := false }, false)
  else if !st.monitored then ({ st with inPending := false }, false)
  else if maxRepeats ≤ st.sentCount then ({ st with inPending := false }, false)
  else
    match st.lastSent with
    | none => (st, false)
    | some t =>
      if interval ≤ now - t then
        ({ st with sentCount := st.sentCount + 1, lastSent := some now,
                   inPending := sendOk }, true)
      else (st, false)

/-- A run of the repeat loop over a list of iteration events
`(repeatEnabled, now, sendOk)`; the second component counts the send
attempts made. -/
def repeat_run (interval : Int) (maxRepeats : Nat) :
    List (Bool × Int × Bool) → RepeatState → RepeatState × Nat
  | [], st => (st, 0)
  | (en, now, ok) :: evs, st =>
    let p := repeat_iter interval maxRepeats en now ok st
    let q := repeat_run interval maxRepeats evs p.1
    (q.1, (if p.2 then 1 else 0) + q.2)

/-- `MultiUserNotifier.confirm_alert` for one user: returns the new
pending registry, the new confirmed-id list, the alert that got
confirmed (with its mutated status), and the Boolean result. -/
def confirm_alert (pending : List (Sym × PAlert)) (confirmed : List Sym)
    (aid : Sym) (now : Int) :
    List (Sym × PAlert) × List Sym × Option (Sym × PAlert) × Bool :=
  match pending.find? (fun x => x.1 == aid) with
  | some ka =>
    let a' := { ka.2 with status := .CONFIRMED, confirmedAt := some now }
    (pending.filter (fun x => !(x.1 == aid)), confirmed ++ [aid],
     some (ka.1, a'), true)
  | none =>
    match pending.find? (fun x => List.isPrefixOf aid x.1 || containsSub aid x.1) with
    | some ka =>
      let a' := { ka.2 with status := .CONFIRMED, confirmedAt := some now }
      (pending.filter (fun x => !(x.1 == ka.1)), confirmed ++ [ka.1],
       some (ka.1, a'), true)
    | none => (pending, confirmed ++ [aid], none, true)

/-- `MultiUserNotifier.remove_alerts_for_symbol`'s symbol match: the
alert's upper-cased symbol equals the target, equals the target with a
`USDT` suffix, or has the same base asset after stripping `USDT`. -/
def symbolMatchesMute (alertSymbol target : Sym) : Bool :=
  let a := upperSym alertSymbol
  a == target || a == target ++ ['U', 'S', 'D', 'T'] ||
    stripUSDT a == stripUSDT target

/-- `MultiUserNotifier.remove_alerts_for_symbol` for one user: matching
alerts leave the pending registry and their ids join the confirmed set. -/
def remove_alerts_for_symbol (pending : List (Sym × PAlert))
    (confirmed : List Sym) (symbol : Sym) :
    List (Sym × PAlert) × List Sym :=
  let tgt := upperSym symbol
  (pending.filter (fun x => !(symbolMatchesMute x.2.symbol tgt)),
   confirmed ++ (pending.filter (fun x => symbolMatchesMute x.2.symbol tgt)).map (·.1))

/-- `UserManager.add_to_blacklist` for one symbol: upper-case, strip,
and append when non-empty and not already present. -/
def add_to_blacklist (bl : List Sym) (s : Sym) : List Sym :=
  let u := trimSym (upperSym s)
  if !u.isEmpty && !(bl.contains u) then bl ++ [u] else bl

/-- The symbol normalization at the top of
`TelegramBot._mute_symbol_for_user`: upper-case, then append `USDT`
when the suffix is missing. -/
def normalizeMuteSymbol (s : Sym) : Sym :=
  let u := upperSym s
  if endsWithUSDT u then u else u ++ ['U', 'S', 'D', 'T']

/-- One user's slice of the state mutated by
`TelegramBot._mute_symbol_for_user`: the blacklist, the dispatcher's
pending and confirmed registries, the engine's cooldown cells keyed by
symbol then alert type, and the timed mute entries. -/
structure BotState where
  blacklist : List Sym
  pending : List (Sym × PAlert)
  confirmed : List Sym
  cooldowns : List (Sym × List (Sym × (Int × AlertLevel)))
  muted : List (Sym × Int)
deriving DecidableEq, Repr

/-- `TelegramBot._mute_symbol_for_user`: (1) blacklist the normalized
symbol, (2) remove its pending alerts marking them confirmed,
(3) clear the engine cooldowns for `(user, symbol)` (the `del
cooldowns[user][symbol]` in `AlertEngine.clear_cooldowns`),
(4) record the unmute instant `now + minutes * 60`. -/
def mute_symbol_for_user (st : BotState) (symbol : Sym) (minutes : Int)
    (now : Int) : BotState :=
  let sym := normalizeMuteSymbol symbol
  let bl := add_to_blacklist st.blacklist sym
  let pc := remove_alerts_for_symbol st.pending st.confirmed sym
  let cd := st.cooldowns.filter (fun x => !(x.1 == sym))
  let mu := st.muted.filter (fun x => !(x.1 == sym)) ++ [(sym, now + minutes * 60)]
  { blacklist := bl, pending := pc.1, confirmed := pc.2, cooldowns := cd,
    muted := mu }

/-! Price history, `models.PriceHistory.get_change`.  The retained
samples are `(timestamp, price)` pairs in arrival order; timestamps
are seconds. -/

/-- The scan in `get_change`: walk the samples in order, remembering
the price of every sample with `t <= cutoff`, and stop at the first
sample with `t > cutoff`. -/
def findOld (cutoff : Int) : List (Int × ℚ) → Option ℚ
  | [] => none
  | (t, p) :: rest =>
    if t ≤ cutoff then
      match findOld cutoff rest with
      | some q => some q
      | none => some p
    else none

/-- `PriceHistory.get_change`: percentage change between the newest
retained price and the baseline at `now - minutes * 60`, `none` with
fewer than two samples or a non-positive baseline. -/
def get_change (prices : List (Int × ℚ)) (now minutes : Int) : Option ℚ :=
  match prices with
  | [] => none
  | [_] => none
  | p0 :: rest =>
    let cutoff := now - minutes * 60
    let current := (List.getLastD rest p0).2
    let oldPrice :=
      match findOld cutoff (p0 :: rest) with
      | some q => q
      | none => p0.2
    if 0 < oldPrice then some ((current - oldPrice) / oldPrice * 100)
    else none

/-- The baseline that `get_change` divides by: the scan result, with
the earliest retained price as fallback. -/
def baselineOf (prices : List (Int × ℚ)) (cutoff : Int) : ℚ :=
  match prices with
  | [] => 0
  | p0 :: rest =>
    match findOld cutoff (p0 :: rest) with
    | some q => q
    | none => p0.2

/-- The baseline as the specification words it: the most recent
retained price whose timestamp is at or before the cutoff, else the
earliest retained price. -/
def specBaseline (prices : List (Int × ℚ)) (cutoff : Int) : ℚ :=
  match prices with
  | [] => 0
  | p0 :: rest =>
    match ((p0 :: rest).filter (fun x => x.1 ≤ cutoff)).getLast? with
    | some q => q.2
    | none => p0.2

/-! Theorems. -/

/-- Helper: the default configuration's tier table is the
specification's tier table. -/
theorem get_threshold_default (V : ℚ) :
    defaultBigOrderThreshold.get_threshold V = (tierAbsSpec V, tierRatioSpec V) := by
  unfold BigOrderThreshold.get_threshold tierAbsSpec tierRatioSpec defaultBigOrderThreshold
  split_ifs <;> rfl

/-- C1: a candidate fires iff the cooldown cell is absent, or at least
`C` seconds have elapsed since `last_fired_at`, or the current level's
priority strictly exceeds the stored level's; it is tagged as an
escalation exactly in the strict-priority-inside-cooldown case; every
fire overwrites the cell with `(now, current_level)` and a suppression
leaves it unchanged. -/
theorem cooldown_escalation_fire_characterization :
    ∀ (cell : Option (Int × AlertLevel)) (now C : Int) (lvl : AlertLevel),
      ((processCandidate cell now C lvl).1.1 = true ↔
        cell = none ∨
          ∃ t l, cell = some (t, l) ∧ (C ≤ now - t ∨ l.priority < lvl.priority)) ∧
      ((processCandidate cell now C lvl).1.2 = true ↔
        ∃ t l, cell = some (t, l) ∧ now - t < C ∧ l.priority < lvl.priority) ∧
      ((processCandidate cell now C lvl).2 =
        if (processCandidate cell now C lvl).1.1 then some (now, lvl) else cell) := by
  intro cell now C lvl
  rcases cell with _ | ⟨t, l⟩
  · simp [processCandidate, checkCooldownAndEscalation]
  · by_cases h : now - t < C
    · by_cases hp : l.priority < lvl.priority
      · simp [processCandidate, checkCooldownAndEscalation, h, hp]
        exact ⟨⟨t, l, ⟨rfl, rfl⟩, Or.inr hp⟩, t, l, ⟨rfl, rfl⟩, h, hp⟩
      · simp [processCandidate, checkCooldownAndEscalation, h, hp]
        omega
    · simp [processCandidate, checkCooldownAndEscalation, h]
      exact ⟨t, l, ⟨rfl, rfl⟩, Or.inl (by omega)⟩

/-- C8: inside an unexpired cooldown window, a suppressed candidate
leaves the cell untouched, and any overwrite of the cell installs a
strictly higher-priority level, so the stored level never decreases
before the cooldown expires. -/
theorem cooldown_level_monotone :
    ∀ (t : Int) (l : AlertLevel) (now C : Int) (lvl : AlertLevel),
      now - t < C →
      ((processCandidate (some (t, l)) now C lvl).1.1 = false →
        (processCandidate (some (t, l)) now C lvl).2 = some (t, l)) ∧
      ((processCandidate (some (t, l)) now C lvl).1.1 = true →
        (processCandidate (some (t, l)) now C lvl).2 = some (now, lvl) ∧
          l.priority < lvl.priority) := by
  intro t l now C lvl h
  by_cases hp : l.priority < lvl.priority
  · simp [processCandidate, checkCooldownAndEscalation, h, hp]
  · simp [processCandidate, checkCooldownAndEscalation, h, hp]

/-- Witness for C8 at a concrete escalation inside the cooldown. -/
theorem cooldown_level_monotone_witness :
    (100 : Int) - 0 < 300 ∧
    (((processCandidate (some (0, AlertLevel.WARNING)) 100 300
        AlertLevel.CRITICAL).1.1 = false →
      (processCandidate (some (0, AlertLevel.WARNING)) 100 300
        AlertLevel.CRITICAL).2 = some (0, AlertLevel.WARNING)) ∧
     ((processCandidate (some (0, AlertLevel.WARNING)) 100 300
        AlertLevel.CRITICAL).1.1 = true →
      (processCandidate (some (0, AlertLevel.WARNING)) 100 300
        AlertLevel.CRITICAL).2 = some (100, AlertLevel.CRITICAL) ∧
        AlertLevel.WARNING.priority < AlertLevel.CRITICAL.priority)) :=
  ⟨by decide, cooldown_level_monotone 0 .WARNING 100 300 .CRITICAL (by decide)⟩

/-- C2: with the default big-order configuration, an order of notional
`N` triggers iff `N` is at least the maximum of the tier's absolute
floor and the tier's percentage of the 24h turnover `V`; for
non-positive `V` it triggers iff `N` is at least the small-cap
absolute floor alone. -/
theorem big_order_trigger_characterization :
    ∀ (V N : ℚ),
      (defaultBigOrderThreshold.is_big_order N V = true ↔
        max (tierAbsSpec V) (V * tierRatioSpec V / 100) ≤ N) ∧
      (V ≤ 0 →
        (defaultBigOrderThreshold.is_big_order N V = true ↔ (500000 : ℚ) ≤ N)) := by
  intro V N
  have hsnd : V ≤ 0 →
      (defaultBigOrderThreshold.is_big_order N V = true ↔ (500000 : ℚ) ≤ N) := by
    intro h0
    simp [BigOrderThreshold.is_big_order, defaultBigOrderThreshold, h0, ge_iff_le]
  refine ⟨?_, hsnd⟩
  by_cases h0 : V ≤ 0
  · have habs : tierAbsSpec V = 500000 := by
      unfold tierAbsSpec
      rw [if_pos (by linarith : V < 10000000)]
    have hrat : tierRatioSpec V = 20 := by
      unfold tierRatioSpec
      rw [if_pos (by linarith : V < 10000000)]
    have hle : V * tierRatioSpec V / 100 ≤ 500000 := by
      rw [hrat]; linarith
    rw [hsnd h0, habs, max_le_iff]
    constructor
    · intro h
      exact ⟨h, hle.trans h⟩
    · rintro ⟨h, _⟩
      exact h
  · simp [BigOrderThreshold.is_big_order, h0, get_threshold_default, ge_iff_le]

/-- Witness for C2 at turnover zero and notional exactly the
small-cap floor. -/
theorem big_order_trigger_witness :
    (0 : ℚ) ≤ 0 ∧
    (defaultBigOrderThreshold.is_big_order 500000 0 = true ↔
      (500000 : ℚ) ≤ 500000) :=
  ⟨le_refl 0, (big_order_trigger_characterization 0 500000).2 (le_refl 0)⟩

/-- A user configuration with night mode enabled but automatic
switching disabled, base mode SINGLE, night window 23:00 to 07:00. -/
def nightAutoOffCfg : AlertModeConfig :=
  { mode := .SINGLE,
    night := { enabled := true, auto_switch := false, night_start := 23 * 60,
               night_end := 7 * 60, night_interval_seconds := 15,
               night_max_repeats := 20 } }

/-- C4 counterexample: at local time 23:30 (inside the window) with
night mode enabled but `auto_switch` off and base mode SINGLE, the
effective mode is SINGLE, not REPEAT as the claim demands. -/
theorem effective_mode_claim_counterexample :
    nightAutoOffCfg.night.enabled = true ∧
    nightWindowContains nightAutoOffCfg.night.night_start
      nightAutoOffCfg.night.night_end 1410 = true ∧
    get_effective_mode nightAutoOffCfg 1410 ≠ AlertMode.REPEAT := by
  decide

/-- C4 amended: the effective mode is REPEAT iff night mode is enabled
with `auto_switch` on and the local time lies in the night window, or
the configured base mode is REPEAT; whenever the night override is not
in force the effective mode equals the configured mode. -/
theorem effective_mode_characterization :
    ∀ (c : AlertModeConfig) (localNow : Nat),
      (get_effective_mode c localNow = .REPEAT ↔
        (c.night.enabled = true ∧ c.night.auto_switch = true ∧
          nightWindowContains c.night.night_start c.night.night_end localNow = true) ∨
        c.mode = .REPEAT) ∧
      (¬(c.night.enabled = true ∧ c.night.auto_switch = true ∧
          nightWindowContains c.night.night_start c.night.night_end localNow = true) →
        get_effective_mode c localNow = c.mode) := by
  intro c localNow
  cases he : c.night.enabled <;> cases ha : c.night.auto_switch <;>
    cases hw : nightWindowContains c.night.night_start c.night.night_end localNow <;>
    cases hm : c.mode <;>
    simp [get_effective_mode, is_night_time, he, ha, hw, hm]

/-- Witness for C4's amended claim at the auto-switch-off
configuration and local time 23:30. -/
theorem effective_mode_characterization_witness :
    ¬(nightAutoOffCfg.night.enabled = true ∧
      nightAutoOffCfg.night.auto_switch = true ∧
      nightWindowContains nightAutoOffCfg.night.night_start
        nightAutoOffCfg.night.night_end 1410 = true) ∧
    get_effective_mode nightAutoOffCfg 1410 = nightAutoOffCfg.mode :=
  ⟨by decide, (effective_mode_characterization nightAutoOffCfg 1410).2 (by decide)⟩

/-- A user configuration whose base mode is REPEAT with night mode
disabled. -/
def repeatBaseCfg : AlertModeConfig :=
  { mode := .REPEAT,
    night := { enabled := false, auto_switch := true, night_start := 23 * 60,
               night_end := 7 * 60, night_interval_seconds := 15,
               night_max_repeats := 20 } }

/-- C5 counterexample: in REPEAT effective mode but with the initial
send reporting failure, the fired alert does not enter the pending
registry, refuting the claimed if-and-only-if. -/
theorem pending_entry_claim_counterexample :
    get_effective_mode repeatBaseCfg 720 = AlertMode.REPEAT ∧
    send_alert_to_user repeatBaseCfg 720 0 false []
      ['a', '1'] { symbol := ['B'] } = [] := by
  decide

/-- C5 amended: a fired alert enters the pending registry iff the
effective mode at fire time is REPEAT and the initial send attempt
reported success. -/
theorem pending_entry_iff_repeat_and_success :
    ∀ (cfg : AlertModeConfig) (localNow : Nat) (now : Int) (ok : Bool)
      (pending : List (Sym × PAlert)) (aid : Sym) (a : PAlert),
      (∀ x ∈ pending, x.1 ≠ aid) →
      ((∃ x ∈ send_alert_to_user cfg localNow now ok pending aid a, x.1 = aid) ↔
        (get_effective_mode cfg localNow = AlertMode.REPEAT ∧ ok = true)) := by
  intro cfg localNow now ok pending aid a hfresh
  by_cases hm : get_effective_mode cfg localNow = AlertMode.REPEAT
  · have hc : (get_effective_mode cfg localNow == AlertMode.REPEAT) = true :=
      beq_iff_eq.mpr hm
    unfold send_alert_to_user
    rw [if_pos hc]
    cases ok
    · rw [if_neg (by simp : ¬ (false = true))]
      constructor
      · rintro ⟨x, hx, hxa⟩
        exact absurd hxa (hfresh x hx)
      · rintro ⟨-, h⟩
        exact absurd h (by simp)
    · rw [if_pos rfl]
      constructor
      · intro
        exact ⟨hm, rfl⟩
      · intro
        exact ⟨(aid, sendOnceUpd a now), List.mem_cons_self _ _, rfl⟩
  · have hc : ¬ ((get_effective_mode cfg localNow == AlertMode.REPEAT) = true) := by
      simpa [beq_iff_eq] using hm
    unfold send_alert_to_user
    rw [if_neg hc]
    constructor
    · rintro ⟨x, hx, hxa⟩
      exact absurd hxa (hfresh x hx)
    · rintro ⟨h, -⟩
      exact absurd h hm

/-- Witness for C5's amended claim: a successful REPEAT-mode send
enters the registry. -/
theorem pending_entry_iff_witness :
    (∀ x ∈ ([] : List (Sym × PAlert)), x.1 ≠ (['a', '1'] : Sym)) ∧
    ((∃ x ∈ send_alert_to_user repeatBaseCfg 720 0 true [] ['a', '1']
        { symbol := ['B'] }, x.1 = (['a', '1'] : Sym)) ↔
      (get_effective_mode repeatBaseCfg 720 = AlertMode.REPEAT ∧ true = true)) :=
  ⟨by simp, pending_entry_iff_repeat_and_success repeatBaseCfg 720 0 true []
    ['a', '1'] { symbol := ['B'] } (by simp)⟩

/-- Helper: one repeat-loop iteration never pushes the sent counter
past the cap. -/
theorem repeat_iter_sentCount_le (interval : Int) (maxRepeats : Nat)
    (en : Bool) (now : Int) (ok : Bool) (st : RepeatState)
    (h : st.sentCount ≤ maxRepeats) :
    (repeat_iter interval maxRepeats en now ok st).1.sentCount ≤ maxRepeats := by
  unfold repeat_iter
  split_ifs with h1 h2 h3 h4 h5 h6 <;> try simpa using h
  rcases hls : st.lastSent with _ | t
  · simpa using h
  · simp only []
    split_ifs with h7
    · simp only []
      omega
    · simpa using h

/-- Helper: one repeat-loop iteration never changes the confirmed,
monitored or active flags, and makes no send attempt when the alert is
confirmed, the symbol unmonitored, or the user inactive. -/
theorem repeat_iter_disqualified (interval : Int) (maxRepeats : Nat)
    (en : Bool) (now : Int) (ok : Bool) (st : RepeatState)
    (h : st.confirmed = true ∨ st.monitored = false ∨ st.active = false) :
    (repeat_iter interval maxRepeats en now ok st).2 = false ∧
    ((repeat_iter interval maxRepeats en now ok st).1.confirmed = st.confirmed ∧
     (repeat_iter interval maxRepeats en now ok st).1.monitored = st.monitored ∧
     (repeat_iter interval maxRepeats en now ok st).1.active = st.active) := by
  unfold repeat_iter
  split_ifs with h1 h2 h3 h4 h5 h6 <;>
    first
    | exact ⟨rfl, rfl, rfl, rfl⟩
    | (exfalso
       rcases h with h | h | h <;> simp_all)

/-- C6: over any run of the repeat loop, the sent counter never
exceeds the effective maximum once it starts below it, and no send
attempt at all is made from a state where the alert is confirmed, its
symbol is no longer monitored (muted), or the user is deactivated. -/
theorem repeat_loop_termination :
    (∀ (interval : Int) (maxRepeats : Nat) (evs : List (Bool × Int × Bool))
       (st : RepeatState),
      st.sentCount ≤ maxRepeats →
      (repeat_run interval maxRepeats evs st).1.sentCount ≤ maxRepeats) ∧
    (∀ (interval : Int) (maxRepeats : Nat) (evs : List (Bool × Int × Bool))
       (st : RepeatState),
      st.confirmed = true ∨ st.monitored = false ∨ st.active = false →
      (repeat_run interval maxRepeats evs st).2 = 0) := by
  constructor
  · intro interval maxRepeats evs
    induction evs with
    | nil => intro st h; exact h
    | cons ev evs ih =>
      intro st h
      rcases ev with ⟨en, now, ok⟩
      exact ih _ (repeat_iter_sentCount_le interval maxRepeats en now ok st h)
  · intro interval maxRepeats evs
    induction evs with
    | nil => intro st _; rfl
    | cons ev evs ih =>
      intro st h
      rcases ev with ⟨en, now, ok⟩
      have hd := repeat_iter_disqualified interval maxRepeats en now ok st h
      have h' : (repeat_iter interval maxRepeats en now ok st).1.confirmed = true ∨
          (repeat_iter interval maxRepeats en now ok st).1.monitored = false ∨
          (repeat_iter interval maxRepeats en now ok st).1.active = false := by
        rcases h with h | h | h
        · exact Or.inl (hd.2.1.trans h)
        · exact Or.inr (Or.inl (hd.2.2.1.trans h))
        · exact Or.inr (Or.inr (hd.2.2.2.trans h))
      simp only [repeat_run, hd.1, if_false]
      simpa using ih _ h'

/-- Witness for C6: a concrete run from a freshly entered pending
alert, and a run from a confirmed alert. -/
theorem repeat_loop_termination_witness :
    ({ sentCount := 1, lastSent := some 0, confirmed := false,
       monitored := true, active := true, inPending := true :
       RepeatState }.sentCount ≤ 30 ∧
     (repeat_run 10 30 [(true, 100, true), (true, 200, true)]
       { sentCount := 1, lastSent := some 0, confirmed := false,
         monitored := true, active := true,
         inPending := true }).1.sentCount ≤ 30) ∧
    (({ sentCount := 1, lastSent := some 0, confirmed := true,
        monitored := true, active := true, inPending := true :
        RepeatState }.confirmed = true ∨
      ({ sentCount := 1, lastSent := some 0, confirmed := true,
         monitored := true, active := true, inPending := true :
         RepeatState }.monitored = false) ∨
      ({ sentCount := 1, lastSent := some 0, confirmed := true,
         monitored := true, active := true, inPending := true :
         RepeatState }.active = false)) ∧
     (repeat_run 10 30 [(true, 100, true), (true, 200, true)]
       { sentCount := 1, lastSent := some 0, confirmed := true,
         monitored := true, active := true, inPending := true }).2 = 0) :=
  ⟨⟨by decide,
    repeat_loop_termination.1 10 30 [(true, 100, true), (true, 200, true)]
      { sentCount := 1, lastSent := some 0, confirmed := false,
        monitored := true, active := true, inPending := true } (by decide)⟩,
   ⟨Or.inl rfl,
    repeat_loop_termination.2 10 30 [(true, 100, true), (true, 200, true)]
      { sentCount := 1, lastSent := some 0, confirmed := true,
        monitored := true, active := true, inPending := true }
      (Or.inl rfl)⟩⟩

/-- Helper: after filtering out a key, no remaining entry carries it. -/
theorem mem_filter_ne_key {l : List (Sym × PAlert)} {k : Sym} :
    ∀ y ∈ l.filter (fun x => !(x.1 == k)), y.1 ≠ k := by
  intro y hy
  have h := (List.mem_filter.mp hy).2
  simp only [Bool.not_eq_eq_eq_not, Bool.not_true, beq_eq_false_iff_ne] at h
  exact h

/-- C10: `confirm_alert` always returns true; an exact match on a
pending id removes that alert, adds the id to the confirmed set and
stamps the alert CONFIRMED with `confirmed_at` set; failing that, the
first pending id having the given id as a prefix or substring is
confirmed the same way; and with no match at all the registries are
unchanged except that the given id joins the confirmed set. -/
theorem confirm_alert_total_characterization :
    ∀ (pending : List (Sym × PAlert)) (confirmed : List Sym) (aid : Sym)
      (now : Int),
      ((confirm_alert pending confirmed aid now).2.2.2 = true) ∧
      (∀ ka, pending.find? (fun x => x.1 == aid) = some ka →
        (∀ y ∈ (confirm_alert pending confirmed aid now).1, y.1 ≠ aid) ∧
        aid ∈ (confirm_alert pending confirmed aid now).2.1 ∧
        (confirm_alert pending confirmed aid now).2.2.1 =
          some (ka.1,
            { ka.2 with status := .CONFIRMED, confirmedAt := some now })) ∧
      (pending.find? (fun x => x.1 == aid) = none →
        ∀ ka, pending.find?
            (fun x => List.isPrefixOf aid x.1 || containsSub aid x.1) = some ka →
        (∀ y ∈ (confirm_alert pending confirmed aid now).1, y.1 ≠ ka.1) ∧
        ka.1 ∈ (confirm_alert pending confirmed aid now).2.1 ∧
        (confirm_alert pending confirmed aid now).2.2.1 =
          some (ka.1,
            { ka.2 with status := .CONFIRMED, confirmedAt := some now })) ∧
      (pending.find? (fun x => x.1 == aid) = none →
        pending.find?
            (fun x => List.isPrefixOf aid x.1 || containsSub aid x.1) = none →
        (confirm_alert pending confirmed aid now).1 = pending ∧
        (confirm_alert pending confirmed aid now).2.1 = confirmed ++ [aid]) := by
  intro pending confirmed aid now
  rcases h1 : pending.find? (fun x => x.1 == aid) with _ | ka1
  · rcases h2 : pending.find?
        (fun x => List.isPrefixOf aid x.1 || containsSub aid x.1) with _ | ka2
    · refine ⟨?_, ?_, ?_, ?_⟩
      · simp [confirm_alert, h1, h2]
      · intro ka hka
        rw [h1] at hka
        exact Option.noConfusion hka
      · intro _ ka hka
        rw [h2] at hka
        exact Option.noConfusion hka
      · intro _ _
        simp [confirm_alert, h1, h2]
    · refine ⟨?_, ?_, ?_, ?_⟩
      · simp [confirm_alert, h1, h2]
      · intro ka hka
        rw [h1] at hka
        exact Option.noConfusion hka
      · intro _ ka hka
        rw [h2] at hka
        injection hka with hk
        subst hk
        simp only [confirm_alert, h1, h2]
        exact ⟨mem_filter_ne_key,
          List.mem_append_right _ (List.mem_singleton.mpr rfl), trivial⟩
      · intro _ hn
        rw [h2] at hn
        exact Option.noConfusion hn
  · refine ⟨?_, ?_, ?_, ?_⟩
    · simp [confirm_alert, h1]
    · intro ka hka
      rw [h1] at hka
      injection hka with hk
      subst hk
      simp only [confirm_alert, h1]
      exact ⟨mem_filter_ne_key,
        List.mem_append_right _ (List.mem_singleton.mpr rfl), trivial⟩
    · intro hn
      rw [h1] at hn
      exact Option.noConfusion hn
    · intro hn
      rw [h1] at hn
      exact Option.noConfusion hn

/-- A one-element pending registry used to witness confirmation. -/
def demoPending : List (Sym × PAlert) :=
  [(['a', 'b', 'c'], { symbol := ['B', 'T', 'C', 'U', 'S', 'D', 'T'] })]

/-- Witness for C10 at an exact id match. -/
theorem confirm_alert_total_witness :
    demoPending.find? (fun x => x.1 == ['a', 'b', 'c']) =
      some (['a', 'b', 'c'],
        { symbol := ['B', 'T', 'C', 'U', 'S', 'D', 'T'] }) ∧
    ((∀ y ∈ (confirm_alert demoPending [] ['a', 'b', 'c'] 7).1,
        y.1 ≠ ['a', 'b', 'c']) ∧
     ['a', 'b', 'c'] ∈ (confirm_alert demoPending [] ['a', 'b', 'c'] 7).2.1 ∧
     (confirm_alert demoPending [] ['a', 'b', 'c'] 7).2.2.1 =
       some (['a', 'b', 'c'],
         { symbol := ['B', 'T', 'C', 'U', 'S', 'D', 'T'],
           status := .CONFIRMED, confirmedAt := some 7 })) :=
  ⟨by decide,
   (confirm_alert_total_characterization demoPending [] ['a', 'b', 'c'] 7).2.1
     (['a', 'b', 'c'], { symbol := ['B', 'T', 'C', 'U', 'S', 'D', 'T'] })
     (by decide)⟩

/-- Helper: `upperSym` distributes over append and fixes `T`. -/
theorem upperSym_append_T (m : Sym) :
    upperSym (m ++ ['T']) = upperSym m ++ ['T'] := by
  simp [upperSym, show Char.toUpper 'T' = 'T' from by decide]

/-- Helper: trimming a list that ends in a non-whitespace character
leaves it non-empty. -/
theorem trimSym_ne_nil_of_last (m : Sym) (c : Char)
    (hc : c.isWhitespace = false) : trimSym (m ++ [c]) ≠ [] := by
  induction m with
  | nil => simp [trimSym, hc]
  | cons x m ih =>
    by_cases hx : x.isWhitespace
    · simpa [trimSym, List.dropWhile_cons, hx] using ih
    · simp [trimSym, List.dropWhile_cons, hx, hc]

/-- Helper: the normalized mute symbol always ends in `T` (the `USDT`
suffix is kept or appended). -/
theorem normalizeMuteSymbol_ends (s : Sym) :
    ∃ m, normalizeMuteSymbol s = m ++ ['T'] := by
  simp only [normalizeMuteSymbol, endsWithUSDT]
  split_ifs with h
  · have hs : ['U', 'S', 'D', 'T'] <:+ upperSym s := by
      simpa using h
    rcases hs with ⟨m, hm⟩
    refine ⟨m ++ ['U', 'S', 'D'], ?_⟩
    rw [← hm]
    simp
  · exact ⟨upperSym s ++ ['U', 'S', 'D'], by simp⟩

/-- Helper: the key that mute inserts into the blacklist is non-empty. -/
theorem muteBlacklistKey_ne_nil (s : Sym) :
    trimSym (upperSym (normalizeMuteSymbol s)) ≠ [] := by
  rcases normalizeMuteSymbol_ends s with ⟨m, hm⟩
  rw [hm, upperSym_append_T]
  exact trimSym_ne_nil_of_last _ _ (by decide)

/-- Helper: `add_to_blacklist` really makes the trimmed upper-cased
symbol a member, provided it is non-empty. -/
theorem add_to_blacklist_mem (bl : List Sym) (s : Sym)
    (hne : trimSym (upperSym s) ≠ []) :
    trimSym (upperSym s) ∈ add_to_blacklist bl s := by
  simp only [add_to_blacklist]
  split_ifs with h
  · exact List.mem_append_right _ (List.mem_singleton.mpr rfl)
  · by_cases hc : bl.contains (trimSym (upperSym s))
    · exact List.elem_iff.mp hc
    · exfalso
      apply h
      simp only [Bool.and_eq_true, Bool.not_eq_eq_eq_not, Bool.not_true,
        Bool.not_eq_true]
      refine ⟨?_, by simpa using hc⟩
      simpa [List.isEmpty_iff] using hne

/-- C3: muting a symbol (1) puts it on the user's blacklist, (2)
removes every pending alert whose symbol matches exactly or by base
asset and adds its id to the confirmed set, (3) clears the engine's
cooldown cells for the symbol, and (4) records a mute entry expiring
at `now + minutes * 60`. -/
theorem mute_contract :
    ∀ (st : BotState) (symbol : Sym) (minutes now : Int),
      trimSym (upperSym (normalizeMuteSymbol symbol)) ∈
        (mute_symbol_for_user st symbol minutes now).blacklist ∧
      (∀ x ∈ st.pending,
        (upperSym x.2.symbol == upperSym (normalizeMuteSymbol symbol) ||
          stripUSDT (upperSym x.2.symbol) ==
            stripUSDT (upperSym (normalizeMuteSymbol symbol))) = true →
        x ∉ (mute_symbol_for_user st symbol minutes now).pending ∧
        x.1 ∈ (mute_symbol_for_user st symbol minutes now).confirmed) ∧
      (∀ y ∈ (mute_symbol_for_user st symbol minutes now).cooldowns,
        y.1 ≠ normalizeMuteSymbol symbol) ∧
      ((normalizeMuteSymbol symbol, now + minutes * 60) ∈
        (mute_symbol_for_user st symbol minutes now).muted ∧
       ∀ e ∈ (mute_symbol_for_user st symbol minutes now).muted,
         e.1 = normalizeMuteSymbol symbol → e.2 = now + minutes * 60) := by
  intro st symbol minutes now
  refine ⟨?_, ?_, ?_, ?_, ?_⟩
  · exact add_to_blacklist_mem st.blacklist (normalizeMuteSymbol symbol)
      (muteBlacklistKey_ne_nil symbol)
  · intro x hx hmatch
    have hm' : symbolMatchesMute x.2.symbol
        (upperSym (normalizeMuteSymbol symbol)) = true := by
      unfold symbolMatchesMute
      have hmm := hmatch
      rw [Bool.or_eq_true] at hmm
      rcases hmm with h | h <;> simp [h]
    constructor
    · intro hmem
      have hmem' : x ∈ st.pending.filter (fun z =>
          !(symbolMatchesMute z.2.symbol
            (upperSym (normalizeMuteSymbol symbol)))) := hmem
      have := (List.mem_filter.mp hmem').2
      simp [hm'] at this
    · show x.1 ∈ st.confirmed ++
        (st.pending.filter (fun z => symbolMatchesMute z.2.symbol
          (upperSym (normalizeMuteSymbol symbol)))).map (·.1)
      exact List.mem_append_right _
        (List.mem_map.mpr ⟨x, List.mem_filter.mpr ⟨hx, hm'⟩, rfl⟩)
  · intro y hy
    have hy' : y ∈ st.cooldowns.filter
        (fun z => !(z.1 == normalizeMuteSymbol symbol)) := hy
    have := (List.mem_filter.mp hy').2
    simpa using this
  · exact List.mem_append_right _ (List.mem_singleton.mpr rfl)
  · intro e he hekey
    have he' : e ∈ st.muted.filter
        (fun z => !(z.1 == normalizeMuteSymbol symbol)) ++
        [(normalizeMuteSymbol symbol, now + minutes * 60)] := he
    rcases List.mem_append.mp he' with h | h
    · have := (List.mem_filter.mp h).2
      simp [hekey] at this
    · rw [List.mem_singleton.mp h]

/-- A concrete dispatcher/bot state used to witness the mute contract. -/
def demoBotState : BotState :=
  { blacklist := [],
    pending := [(['i', 'd', '1'],
      { symbol := ['B', 'T', 'C', 'U', 'S', 'D', 'T'] })],
    confirmed := [],
    cooldowns := [(['B', 'T', 'C', 'U', 'S', 'D', 'T'],
      [(['p'], (0, .WARNING))])],
    muted := [] }

/-- The pending alert muted in the witness. -/
def demoMutePair : Sym × PAlert :=
  (['i', 'd', '1'], { symbol := ['B', 'T', 'C', 'U', 'S', 'D', 'T'] })

/-- Witness for C3: muting `btc` removes the matching pending alert
and confirms its id. -/
theorem mute_contract_witness :
    demoMutePair ∈ demoBotState.pending ∧
    (upperSym demoMutePair.2.symbol ==
        upperSym (normalizeMuteSymbol ['b', 't', 'c']) ||
      stripUSDT (upperSym demoMutePair.2.symbol) ==
        stripUSDT (upperSym (normalizeMuteSymbol ['b', 't', 'c']))) = true ∧
    (demoMutePair ∉
        (mute_symbol_for_user demoBotState ['b', 't', 'c'] 60 1000).pending ∧
      demoMutePair.1 ∈
        (mute_symbol_for_user demoBotState ['b', 't', 'c'] 60 1000).confirmed) :=
  ⟨by decide, by decide,
   (mute_contract demoBotState ['b', 't', 'c'] 60 1000).2.1 demoMutePair
     (by decide) (by decide)⟩

/-- Helper: on a chronologically sorted history the `get_change` scan
returns the price of the last retained sample at or before the cutoff. -/
theorem findOld_eq_filter_getLast (cutoff : Int) :
    ∀ l : List (Int × ℚ), l.Pairwise (fun a b => a.1 ≤ b.1) →
      findOld cutoff l =
        ((l.filter (fun x => x.1 ≤ cutoff)).getLast?).map (fun x => x.2) := by
  intro l
  induction l with
  | nil => intro _; rfl
  | cons hd rest ih =>
    intro hp
    rcases hd with ⟨t, p⟩
    rcases List.pairwise_cons.mp hp with ⟨hall, htl⟩
    by_cases hcut : t ≤ cutoff
    · have hfil : (((t, p) :: rest).filter (fun x => x.1 ≤ cutoff)) =
          (t, p) :: rest.filter (fun x => x.1 ≤ cutoff) := by
        simp [List.filter_cons, hcut]
      rw [hfil, List.getLast?_cons]
      simp only [findOld, if_pos hcut, ih htl]
      cases hcase : (rest.filter (fun x => x.1 ≤ cutoff)).getLast? with
      | none => simp [hcase]
      | some q => simp [hcase]
    · have hfil : (((t, p) :: rest).filter (fun x => x.1 ≤ cutoff)) = [] := by
        rw [List.filter_eq_nil_iff]
        intro a ha
        rcases List.mem_cons.mp ha with rfl | ha'
        · simpa using hcut
        · have := hall a ha'
          simp only [decide_eq_true_eq]
          omega
      rw [hfil]
      simp [findOld, hcut]

/-- C7: on a chronologically ordered history with at least two
samples and a positive baseline, `get_change` returns the percentage
change of the newest price against the most recent price at or before
`now - minutes * 60` (earliest price when none is that old); with
fewer than two samples it returns `none`. -/
theorem get_change_characterization :
    ∀ (prices : List (Int × ℚ)) (now minutes : Int),
      (prices.Pairwise (fun a b => a.1 ≤ b.1) →
        2 ≤ prices.length →
        0 < specBaseline prices (now - minutes * 60) →
        get_change prices now minutes =
          some (((prices.getLastD (0, 0)).2 -
              specBaseline prices (now - minutes * 60)) /
            specBaseline prices (now - minutes * 60) * 100)) ∧
      (prices.length < 2 → get_change prices now minutes = none) := by
  intro prices now minutes
  constructor
  · intro hsort hlen hpos
    rcases prices with _ | ⟨p0, rest⟩
    · simp at hlen
    rcases rest with _ | ⟨p1, rest⟩
    · simp at hlen
    have hb : baselineOf (p0 :: p1 :: rest) (now - minutes * 60) =
        specBaseline (p0 :: p1 :: rest) (now - minutes * 60) := by
      show (match findOld (now - minutes * 60) (p0 :: p1 :: rest) with
          | some q => q
          | none => p0.2) =
        (match ((p0 :: p1 :: rest).filter
            (fun x => x.1 ≤ now - minutes * 60)).getLast? with
          | some q => q.2
          | none => p0.2)
      rw [findOld_eq_filter_getLast _ _ hsort]
      cases hcase : ((p0 :: p1 :: rest).filter
          (fun x => x.1 ≤ now - minutes * 60)).getLast? with
      | none => simp [hcase]
      | some q => simp [hcase]
    have hold : (match findOld (now - minutes * 60) (p0 :: p1 :: rest) with
        | some q => q
        | none => p0.2) =
        baselineOf (p0 :: p1 :: rest) (now - minutes * 60) := rfl
    simp only [get_change, hold, hb, List.getLastD_cons]
    rw [if_pos hpos]
  · intro hlen
    rcases prices with _ | ⟨p0, rest⟩
    · rfl
    rcases rest with _ | ⟨p1, rest⟩
    · rfl
    · simp at hlen
      omega

/-- Witness for C7 on a three-sample history. -/
theorem get_change_characterization_witness :
    (([(0, 100), (50, 110), (100, 121)] :
        List (Int × ℚ)).Pairwise (fun a b => a.1 ≤ b.1) ∧
     2 ≤ ([(0, 100), (50, 110), (100, 121)] : List (Int × ℚ)).length ∧
     0 < specBaseline [(0, 100), (50, 110), (100, 121)] (100 - 1 * 60)) ∧
    get_change [(0, 100), (50, 110), (100, 121)] 100 1 =
      some (((([(0, 100), (50, 110), (100, 121)] :
          List (Int × ℚ)).getLastD (0, 0)).2 -
        specBaseline [(0, 100), (50, 110), (100, 121)] (100 - 1 * 60)) /
        specBaseline [(0, 100), (50, 110), (100, 121)] (100 - 1 * 60) * 100) :=
  ⟨⟨by decide, by decide, by decide⟩,
   (get_change_characterization [(0, 100), (50, 110), (100, 121)] 100 1).1
     (by decide) (by decide) (by decide)⟩

/-- C9: `get_change` never divides by a non-positive baseline: it
returns `none` whenever the selected baseline is zero or negative, and
any returned value was computed from a strictly positive baseline. -/
theorem get_change_baseline_guard :
    ∀ (prices : List (Int × ℚ)) (now minutes : Int),
      (baselineOf prices (now - minutes * 60) ≤ 0 →
        get_change prices now minutes = none) ∧
      (∀ r, get_change prices now minutes = some r →
        0 < baselineOf prices (now - minutes * 60) ∧
        r = ((prices.getLastD (0, 0)).2 -
            baselineOf prices (now - minutes * 60)) /
          baselineOf prices (now - minutes * 60) * 100) := by
  intro prices now minutes
  rcases prices with _ | ⟨p0, rest⟩
  · exact ⟨fun _ => rfl, fun r h => Option.noConfusion h⟩
  rcases rest with _ | ⟨p1, rest⟩
  · exact ⟨fun _ => rfl, fun r h => Option.noConfusion h⟩
  have hold : (match findOld (now - minutes * 60) (p0 :: p1 :: rest) with
      | some q => q
      | none => p0.2) =
      baselineOf (p0 :: p1 :: rest) (now - minutes * 60) := rfl
  by_cases hpos : 0 < baselineOf (p0 :: p1 :: rest) (now - minutes * 60)
  · constructor
    · intro hle
      exact absurd hpos (by linarith)
    · intro r h
      refine ⟨hpos, ?_⟩
      simp only [get_change, hold, if_pos hpos, List.getLastD_cons] at h ⊢
      exact (Option.some_injective _ h).symm
  · constructor
    · intro _
      simp only [get_change, hold, if_neg hpos]
    · intro r h
      simp only [get_change, hold, if_neg hpos] at h
      exact Option.noConfusion h

/-- Witness for C9 on a history whose baseline price is zero. -/
theorem get_change_baseline_guard_witness :
    baselineOf [(0, 0), (50, 110)] (30 - 0 * 60) ≤ 0 ∧
    get_change [(0, 0), (50, 110)] 30 0 = none :=
  ⟨by decide,
   (get_change_baseline_guard [(0, 0), (50, 110)] 30 0).1 (by decide)⟩

end CoinWhistle
